import Mathlib

/-!
# Verification of the unhwp Python binding

Shallow embedding of `src/bindings/python/src/unhwp/unhwp.py` (the high-level
Python API over the native unhwp library).  The native engine itself is not
part of the provided sources, so it is modelled as an abstract record of the
functions the binding dispatches to (`NativeEngine`); the binding code is
translated line by line from `unhwp.py`.
-/

namespace Unhwp

/-- A byte buffer crossing the native boundary, one `Nat` per byte. -/
abbrev Bytes := List Nat

/-- Format constant `FORMAT_UNKNOWN = 0` (from `_native.py`). -/
def FORMAT_UNKNOWN : Nat := 0

/-- Format constant `FORMAT_HWP5 = 1` (from `_native.py`). -/
def FORMAT_HWP5 : Nat := 1

/-- Format constant `FORMAT_HWPX = 2` (from `_native.py`). -/
def FORMAT_HWPX : Nat := 2

/-- Format constant `FORMAT_HWP3 = 3` (from `_native.py`). -/
def FORMAT_HWP3 : Nat := 3

/-- Modelled from the spec: the bit-flag constant `UNHWP_FLAG_FRONTMATTER`
referenced by `RenderOptions._to_flags` is not defined in the provided
`_native.py`; the spec describes a bit-flag integer covering
`frontmatter`, `escape_special`, `paragraph_spacing`, so the three flags are
modelled as distinct bits. -/
def UNHWP_FLAG_FRONTMATTER : Nat := 1

/-- Modelled from the spec: the bit-flag constant `UNHWP_FLAG_ESCAPE_SPECIAL`
(see `UNHWP_FLAG_FRONTMATTER`). -/
def UNHWP_FLAG_ESCAPE_SPECIAL : Nat := 2

/-- Modelled from the spec: the bit-flag constant `UNHWP_FLAG_PARAGRAPH_SPACING`
(see `UNHWP_FLAG_FRONTMATTER`). -/
def UNHWP_FLAG_PARAGRAPH_SPACING : Nat := 4

/-- Modelled from the spec: the JSON mode constant `UNHWP_JSON_PRETTY` passed by
`ParseResult.json`; the spec table gives `getJson(handle, pretty|compact)`. -/
def UNHWP_JSON_PRETTY : Nat := 1

/-- The unified error taxonomy surfaced by the binding.  `valueError` is the
`ValueError` raised by `ParseResult._ensure_open` (the `InvalidState` kind of
the spec's taxonomy); the remaining constructors are the exception classes
defined in `unhwp.py`. -/
inductive UnhwpErr where
  | unhwpError (msg : String)
  | fileNotFound (msg : String)
  | parseError (msg : String)
  | renderError (msg : String)
  | unsupportedFormat (msg : String)
  | valueError (msg : String)
  deriving DecidableEq, Repr

/-- The native engine as seen through the ctypes boundary: each field is one
native entry point the binding calls.  A null pointer/handle is `none`
(for handles, the integer `0`); string results are modelled as the UTF-8
decoded text the Python side obtains from the returned buffer. -/
structure NativeEngine where
  /-- `unhwp_parse_file(path)`: document handle, `0` on failure. -/
  parse_file : String → Nat
  /-- `unhwp_parse_bytes(data, len)`: document handle, `0` on failure. -/
  parse_bytes_fn : Bytes → Nat
  /-- `unhwp_last_error()`: most recent error message, `none` when null. -/
  last_error : Option String
  /-- `unhwp_to_markdown(handle, flags)`: rendered markdown, `none` when null. -/
  to_markdown_fn : Nat → Nat → Option String
  /-- `unhwp_to_text(handle)`. -/
  to_text_fn : Nat → Option String
  /-- `unhwp_plain_text(handle)`. -/
  plain_text_fn : Nat → Option String
  /-- `unhwp_to_json(handle, mode)`. -/
  to_json_fn : Nat → Nat → Option String
  /-- `unhwp_section_count(handle)`: a C int, negative on failure. -/
  section_count_fn : Nat → Int
  /-- `unhwp_resource_count(handle)`: a C int, negative on failure. -/
  resource_count_fn : Nat → Int
  /-- `unhwp_get_title(handle)`: `none` when null (title absent). -/
  get_title : Nat → Option String
  /-- `unhwp_get_author(handle)`: `none` when null (author absent). -/
  get_author : Nat → Option String
  /-- `unhwp_get_resource_ids(handle)`: JSON array of ids, already decoded
  to the list `json.loads` produces; `none` when the pointer is null. -/
  get_resource_ids : Nat → Option (List String)
  /-- `unhwp_get_resource_data(handle, id, &len)`: `none` models a null data
  pointer, `some buf` a non-null pointer with `out_len = buf.length`. -/
  get_resource_data : Nat → String → Option Bytes

/-- `_get_last_error()`: decode the engine's last-error string, or the fixed
fallback text when the pointer is null. -/
def get_last_error (e : NativeEngine) : String :=
  match e.last_error with
  | some s => s
  | none => "Unknown error"

/-- `RenderOptions` dataclass with its Python default field values. -/
structure RenderOptions where
  include_frontmatter : Bool := false
  image_path_prefix : String := ""
  table_fallback : Nat := 0
  preserve_line_breaks : Bool := false
  escape_special_chars : Bool := true
  deriving DecidableEq, Repr

/-- `RenderOptions()` with every field at its default. -/
def RenderOptions.mkDefault : RenderOptions := {}

/-- `RenderOptions._to_flags`: fold the three boolean fields into the native
flags bitmask; `image_path_prefix` and `table_fallback` are not consulted. -/
def RenderOptions._to_flags (o : RenderOptions) : Nat :=
  let flags := 0
  let flags := if o.include_frontmatter then flags ||| UNHWP_FLAG_FRONTMATTER else flags
  let flags := if o.escape_special_chars then flags ||| UNHWP_FLAG_ESCAPE_SPECIAL else flags
  let flags := if o.preserve_line_breaks then flags ||| UNHWP_FLAG_PARAGRAPH_SPACING else flags
  flags

/-- `CleanupOptions` dataclass with its Python default field values. -/
structure CleanupOptions where
  enabled : Bool := true
  preset : Nat := 1
  detect_mojibake : Bool := true
  preserve_frontmatter : Bool := true
  deriving DecidableEq, Repr

/-- `CleanupOptions.minimal()`. -/
def CleanupOptions.minimal : CleanupOptions := { enabled := true, preset := 0 }

/-- `CleanupOptions.default()`. -/
def CleanupOptions.default : CleanupOptions := { enabled := true, preset := 1 }

/-- `CleanupOptions.aggressive()`. -/
def CleanupOptions.aggressive : CleanupOptions := { enabled := true, preset := 2 }

/-- `CleanupOptions.disabled()`. -/
def CleanupOptions.disabled : CleanupOptions := { enabled := false }

/-- An extracted image (`Image` dataclass): resource id and data bytes. -/
structure Image where
  name : String
  data : Bytes
  deriving DecidableEq, Repr

/-- The Python-side state of a `ParseResult`: the stored native handle
(`None` after close, hence `Option`), the flags captured at parse time, and
the `_closed` bookkeeping bit. -/
structure ParseResult where
  handle : Option Nat
  flags : Nat
  closed : Bool
  deriving DecidableEq, Repr

/-- Python truthiness of the stored handle (`self._handle`): `None` and the
integer `0` are falsy. -/
def handleTruthy : Option Nat → Bool
  | none => false
  | some n => n != 0

/-- A `ParseResult` paired with a counter of how many times the binding has
invoked the native `unhwp_free_document` on its behalf; used to state the
no-double-free property of `close`. -/
structure CloseState where
  pr : ParseResult
  freeCalls : Nat
  deriving DecidableEq, Repr

/-- `ParseResult.close()`: free the native document once, guarded by the
`_closed` flag and handle truthiness; afterwards `_handle = None` and
`_closed = True`. -/
def close (s : CloseState) : CloseState :=
  if ¬ s.pr.closed ∧ handleTruthy s.pr.handle then
    { pr := { s.pr with handle := none, closed := true }, freeCalls := s.freeCalls + 1 }
  else s

/-- `ParseResult._ensure_open()`: raise `ValueError` when the result has been
closed. -/
def ensure_open (r : ParseResult) : Except UnhwpErr Unit :=
  if r.closed then .error (.valueError "ParseResult has been closed") else .ok ()

/-- `ParseResult.markdown`. -/
def markdown (e : NativeEngine) (r : ParseResult) : Except UnhwpErr String := do
  ensure_open r
  match e.to_markdown_fn (r.handle.getD 0) r.flags with
  | none => .error (.renderError ("Failed to convert to markdown: " ++ get_last_error e))
  | some s => .ok s

/-- `ParseResult.text`. -/
def text (e : NativeEngine) (r : ParseResult) : Except UnhwpErr String := do
  ensure_open r
  match e.to_text_fn (r.handle.getD 0) with
  | none => .error (.renderError ("Failed to convert to text: " ++ get_last_error e))
  | some s => .ok s

/-- `ParseResult.plain_text`. -/
def plain_text (e : NativeEngine) (r : ParseResult) : Except UnhwpErr String := do
  ensure_open r
  match e.plain_text_fn (r.handle.getD 0) with
  | none => .error (.renderError ("Failed to get plain text: " ++ get_last_error e))
  | some s => .ok s

/-- `ParseResult.json`. -/
def json (e : NativeEngine) (r : ParseResult) : Except UnhwpErr String := do
  ensure_open r
  match e.to_json_fn (r.handle.getD 0) UNHWP_JSON_PRETTY with
  | none => .error (.renderError ("Failed to convert to JSON: " ++ get_last_error e))
  | some s => .ok s

/-- `ParseResult.section_count`. -/
def section_count (e : NativeEngine) (r : ParseResult) : Except UnhwpErr Int := do
  ensure_open r
  let count := e.section_count_fn (r.handle.getD 0)
  if count < 0 then
    .error (.unhwpError ("Failed to get section count: " ++ get_last_error e))
  else
    .ok count

/-- `ParseResult.paragraph_count`: delegates to `section_count`. -/
def paragraph_count (e : NativeEngine) (r : ParseResult) : Except UnhwpErr Int := do
  ensure_open r
  section_count e r

/-- `ParseResult.is_distribution`: returns `False` unconditionally (the
property body has no `_ensure_open` call and no native dispatch). -/
def is_distribution (_e : NativeEngine) (_r : ParseResult) : Except UnhwpErr Bool :=
  .ok false

/-- `ParseResult.image_count`. -/
def image_count (e : NativeEngine) (r : ParseResult) : Except UnhwpErr Int := do
  ensure_open r
  let count := e.resource_count_fn (r.handle.getD 0)
  if count < 0 then
    .error (.unhwpError ("Failed to get resource count: " ++ get_last_error e))
  else
    .ok count

/-- `ParseResult.title`: `None` pointer means the title is absent, not an
error. -/
def title (e : NativeEngine) (r : ParseResult) : Except UnhwpErr (Option String) := do
  ensure_open r
  .ok (e.get_title (r.handle.getD 0))

/-- `ParseResult.author`. -/
def author (e : NativeEngine) (r : ParseResult) : Except UnhwpErr (Option String) := do
  ensure_open r
  .ok (e.get_author (r.handle.getD 0))

/-- The per-resource step of the `images` loop body: keep the resource when
`unhwp_get_resource_data` returns a non-null pointer with positive length,
skip it otherwise. -/
def extractOne (e : NativeEngine) (h : Nat) (resource_id : String) : Option Image :=
  match e.get_resource_data h resource_id with
  | some d => if 0 < d.length then some ⟨resource_id, d⟩ else none
  | none => none

/-- `ParseResult.images`: list the advertised resource ids and collect every
resource whose data retrieval yields a non-null, non-empty buffer. -/
def images (e : NativeEngine) (r : ParseResult) : Except UnhwpErr (List Image) := do
  ensure_open r
  match e.get_resource_ids (r.handle.getD 0) with
  | none => .ok []
  | some resource_ids => .ok (resource_ids.filterMap (extractOne e (r.handle.getD 0)))

/-- `ParseResult.iter_images`: the generator yields exactly the images the
eager `images` property collects, in the same order (same loop body); it is
modelled by the sequence of its yields. -/
def iter_images (e : NativeEngine) (r : ParseResult) : Except UnhwpErr (List Image) := do
  ensure_open r
  match e.get_resource_ids (r.handle.getD 0) with
  | none => .ok []
  | some resource_ids => .ok (resource_ids.filterMap (extractOne e (r.handle.getD 0)))

/-- `parse(path, render_options=...)`: compute flags, call the native parser,
translate a falsy handle into `ParseError` carrying the last-error text, and
otherwise wrap the handle in an open `ParseResult`. -/
def parse (e : NativeEngine) (path : String) (render_options : Option RenderOptions) :
    Except UnhwpErr ParseResult :=
  let flags := (render_options.getD RenderOptions.mkDefault)._to_flags
  let h := e.parse_file path
  if h = 0 then
    .error (.parseError ("Failed to parse " ++ path ++ ": " ++ get_last_error e))
  else
    .ok { handle := some h, flags := flags, closed := false }

/-- `parse_bytes(data, render_options=...)`. -/
def parse_bytes (e : NativeEngine) (data : Bytes) (render_options : Option RenderOptions) :
    Except UnhwpErr ParseResult :=
  let flags := (render_options.getD RenderOptions.mkDefault)._to_flags
  let h := e.parse_bytes_fn data
  if h = 0 then
    .error (.parseError ("Failed to parse bytes: " ++ get_last_error e))
  else
    .ok { handle := some h, flags := flags, closed := false }

/-- `to_markdown(path)`: parse, read the markdown, close the handle on scope
exit (closing does not affect the returned value). -/
def to_markdown (e : NativeEngine) (path : String) : Except UnhwpErr String := do
  let r ← parse e path none
  markdown e r

/-- `to_markdown_with_cleanup(path, cleanup_options)`: the native library has
no cleanup API, so the body is exactly `return to_markdown(path)`. -/
def to_markdown_with_cleanup (e : NativeEngine) (path : String)
    (_cleanup_options : Option CleanupOptions) : Except UnhwpErr String :=
  to_markdown e path

/-- `extract_text(path)`. -/
def extract_text (e : NativeEngine) (path : String) : Except UnhwpErr String := do
  let r ← parse e path none
  text e r

/-- The filesystem view `detect_format` consults: whether the path exists and
what bytes the file holds.  `detect_format` is evaluated against a map from
paths to entries. -/
structure FSEntry where
  present : Bool
  content : Bytes
  deriving DecidableEq, Repr

/-- Split a character list at every occurrence of `sep` (the groups between
separators, in order; empty groups kept). -/
def splitOnChar (sep : Char) : List Char → List (List Char)
  | [] => [[]]
  | c :: cs =>
    let r := splitOnChar sep cs
    if c = sep then [] :: r
    else
      match r with
      | [] => [[c]]
      | g :: gs => (c :: g) :: gs

/-- `pathlib.PurePath.name` of a POSIX path: the final non-empty component
(trailing slashes and duplicate slashes are dropped by pathlib's parser). -/
def pathName (path : String) : List Char :=
  ((splitOnChar '/' path.toList).filter (fun c => c ≠ [])).getLastD []

/-- Index of the last `'.'` in a character list, as `name.rfind('.')` in
CPython's `PurePath.suffix`. -/
def rfindDot (cs : List Char) : Option Nat :=
  match cs.reverse.findIdx? (fun c => c = '.') with
  | none => none
  | some j => some (cs.length - 1 - j)

/-- `pathlib.PurePath.suffix`: the extension of the final component including
the leading dot, empty when the dot is leading, trailing or absent
(CPython: `i = name.rfind('.'); name[i:] if 0 < i < len(name) - 1 else ''`). -/
def pathSuffix (path : String) : String :=
  let cs := pathName path
  match rfindDot cs with
  | some i => if 0 < i ∧ i + 1 < cs.length then String.mk (cs.drop i) else ""
  | none => ""

/-- `str.lower()` restricted to ASCII, character by character (sufficient for
comparison against the ASCII literals `".hwp"` and `".hwpx"`). -/
def lowerAscii (s : String) : String :=
  String.mk (s.toList.map Char.toLower)

/-- `detect_format(path)`: `FORMAT_UNKNOWN` for nonexistent paths; otherwise
classify purely by the lower-cased filename extension (`.hwp` as HWP5,
`.hwpx` as HWPX, anything else as Unknown) — file content is never read. -/
def detect_format (fs : String → FSEntry) (path : String) : Nat :=
  if ¬ (fs path).present then FORMAT_UNKNOWN
  else
    let ext := lowerAscii (pathSuffix path)
    if ext = ".hwp" then FORMAT_HWP5
    else if ext = ".hwpx" then FORMAT_HWPX
    else FORMAT_UNKNOWN

/-!
## Concrete fixtures

Concrete engines, results and filesystems used to instantiate the theorems
below on explicit inputs.
-/

/-- An engine whose every call fails: the parser returns a null handle, all
renderers return null pointers, the counts are negative, and the last-error
buffer holds a message. -/
def stubEngine : NativeEngine where
  parse_file := fun _ => 0
  parse_bytes_fn := fun _ => 0
  last_error := some "File not found"
  to_markdown_fn := fun _ _ => none
  to_text_fn := fun _ => none
  plain_text_fn := fun _ => none
  to_json_fn := fun _ _ => none
  section_count_fn := fun _ => -1
  resource_count_fn := fun _ => -1
  get_title := fun _ => none
  get_author := fun _ => none
  get_resource_ids := fun _ => none
  get_resource_data := fun _ _ => none

/-- An engine modelling a successfully parsed well-formed document with two
embedded images. -/
def goodEngine : NativeEngine where
  parse_file := fun _ => 7
  parse_bytes_fn := fun _ => 7
  last_error := none
  to_markdown_fn := fun _ _ => some "# Title"
  to_text_fn := fun _ => some "Title"
  plain_text_fn := fun _ => some "Title"
  to_json_fn := fun _ _ => some "[]"
  section_count_fn := fun _ => 3
  resource_count_fn := fun _ => 2
  get_title := fun _ => some "Title"
  get_author := fun _ => none
  get_resource_ids := fun _ => some ["img1.png", "img2.jpg"]
  get_resource_data := fun _ rid =>
    if rid = "img1.png" then some [1, 2, 3]
    else if rid = "img2.jpg" then some [9]
    else none

/-- An engine advertising three resources of which the middle one is corrupt
(its data pointer comes back null). -/
def badResourceEngine : NativeEngine where
  parse_file := fun _ => 7
  parse_bytes_fn := fun _ => 7
  last_error := none
  to_markdown_fn := fun _ _ => some "# Title"
  to_text_fn := fun _ => some "Title"
  plain_text_fn := fun _ => some "Title"
  to_json_fn := fun _ _ => some "[]"
  section_count_fn := fun _ => 3
  resource_count_fn := fun _ => 3
  get_title := fun _ => none
  get_author := fun _ => none
  get_resource_ids := fun _ => some ["good.png", "bad.png", "alsogood.png"]
  get_resource_data := fun _ rid =>
    if rid = "good.png" then some [5]
    else if rid = "alsogood.png" then some [7, 8]
    else none

/-- A freshly parsed, open result over handle `7` with default flags. -/
def okResult : ParseResult := { handle := some 7, flags := 2, closed := false }

/-- A result after `close()`: handle dropped, `_closed` set. -/
def closedResult : ParseResult := { handle := none, flags := 2, closed := true }

/-- `okResult` paired with a zero free-counter, before any `close()` call. -/
def freshClose : CloseState := { pr := okResult, freeCalls := 0 }

/-- Render options setting the two fields the flag encoding cannot carry. -/
def lossyOpts : RenderOptions := { image_path_prefix := "img/", table_fallback := 1 }

/-- A one-file filesystem: `entry` at `path`, nothing anywhere else. -/
def fsWith (path : String) (entry : FSEntry) : String → FSEntry :=
  fun p => if p = path then entry else { present := false, content := [] }

/-- A filesystem holding a single zero-byte file named `empty.hwp`. -/
def emptyHwpFS : String → FSEntry :=
  fsWith "empty.hwp" { present := true, content := [] }

/-- Recognizer for the `FileNotFound` taxonomy kind of a call outcome. -/
def raisesFileNotFound {α : Type} : Except UnhwpErr α → Bool
  | .error (.fileNotFound _) => true
  | _ => false

/-!
## Helper lemmas
-/

/-- On a closed result every accessor body that starts with `_ensure_open`
short-circuits to the `ValueError`. -/
theorem ensure_open_bind_closed {α : Type} (r : ParseResult) (hc : r.closed = true)
    (f : Unit → Except UnhwpErr α) :
    (ensure_open r >>= f) = .error (.valueError "ParseResult has been closed") := by
  simp only [ensure_open, hc, if_true]
  rfl

/-- Closing twice is the same as closing once. -/
theorem close_close (s : CloseState) : close (close s) = close s := by
  rcases s with ⟨⟨oh, fl, c⟩, k⟩
  cases c
  · cases oh with
    | none => simp [close, handleTruthy]
    | some n =>
      by_cases hn : n = 0
      · simp [close, handleTruthy, hn]
      · simp [close, handleTruthy, hn]
  · simp [close, handleTruthy]

/-- When every element of `l` extracts to a non-empty buffer, the `images`
loop keeps all of them, each under its own id. -/
theorem filterMap_extractOne_total (e : NativeEngine) (h : Nat) (l : List String)
    (hl : ∀ i ∈ l, ∃ d, e.get_resource_data h i = some d ∧ 0 < d.length) :
    (l.filterMap (extractOne e h)).map Image.name = l ∧
    (l.filterMap (extractOne e h)).length = l.length := by
  induction l with
  | nil => exact ⟨rfl, rfl⟩
  | cons a t ih =>
    obtain ⟨d, hd, hlen⟩ := hl a (List.mem_cons_self a t)
    have ht := ih (fun i hi => hl i (List.mem_cons_of_mem a hi))
    have ha : extractOne e h a = some ⟨a, d⟩ := by
      unfold extractOne
      rw [hd]
      simp [hlen]
    simp [List.filterMap_cons, ha, ht.1, ht.2]

/-!
## Claim theorems
-/

/-- Claim C1, counterexample: on a closed handle, `is_distribution` does not
fail with `InvalidState` — it silently returns the value `False` (its body
never calls `_ensure_open`). -/
theorem is_distribution_closed_silently_returns_false :
    closedResult.closed = true ∧
    is_distribution stubEngine closedResult = Except.ok false :=
  ⟨rfl, rfl⟩

/-- Claim C1 (amended): after close, every accessor except `is_distribution`
fails with the `InvalidState` `ValueError` raised by `_ensure_open`
(`markdown`, `text`, `plain_text`, `json`, `section_count`,
`paragraph_count`, `image_count`, `title`, `author`, `images`,
`iter_images`); `is_distribution` instead silently returns `False` even on a
closed handle. -/
theorem closed_handle_accessors_raise_invalid_state
    (e : NativeEngine) (r : ParseResult) (hc : r.closed = true) :
    markdown e r = .error (.valueError "ParseResult has been closed") ∧
    text e r = .error (.valueError "ParseResult has been closed") ∧
    plain_text e r = .error (.valueError "ParseResult has been closed") ∧
    json e r = .error (.valueError "ParseResult has been closed") ∧
    section_count e r = .error (.valueError "ParseResult has been closed") ∧
    paragraph_count e r = .error (.valueError "ParseResult has been closed") ∧
    image_count e r = .error (.valueError "ParseResult has been closed") ∧
    title e r = .error (.valueError "ParseResult has been closed") ∧
    author e r = .error (.valueError "ParseResult has been closed") ∧
    images e r = .error (.valueError "ParseResult has been closed") ∧
    iter_images e r = .error (.valueError "ParseResult has been closed") ∧
    is_distribution e r = Except.ok false := by
  refine ⟨?_, ?_, ?_, ?_, ?_, ?_, ?_, ?_, ?_, ?_, ?_, rfl⟩
  all_goals exact ensure_open_bind_closed r hc _

/-- Claim C1, witness: the amended theorem applied to the concrete closed
result and the stub engine. -/
theorem closed_handle_accessors_raise_invalid_state_witness :
    closedResult.closed = true ∧
    markdown stubEngine closedResult =
      .error (.valueError "ParseResult has been closed") :=
  ⟨rfl, (closed_handle_accessors_raise_invalid_state stubEngine closedResult rfl).1⟩

/-- Claim C2: `close` is idempotent — any sequence of `n ≥ 1` close calls
leaves the state exactly as a single close does (so later calls are no-ops
and raise nothing), and a single close performs at most one native
`unhwp_free_document` call. -/
theorem close_idempotent_and_frees_at_most_once (s : CloseState) (n : Nat)
    (hn : 1 ≤ n) :
    close^[n] s = close s ∧ (close s).freeCalls ≤ s.freeCalls + 1 := by
  constructor
  · obtain ⟨k, rfl⟩ : ∃ k, n = k + 1 := ⟨n - 1, by omega⟩
    clear hn
    induction k with
    | zero => rfl
    | succ m ih =>
      rw [Function.iterate_succ_apply', ih, close_close]
  · unfold close
    split
    · exact Nat.le_refl _
    · exact Nat.le_succ _

/-- Claim C2, witness: two closes on a fresh open result coincide with one
close, which frees exactly once. -/
theorem close_idempotent_and_frees_at_most_once_witness :
    (1 ≤ 2 ∧ close^[2] freshClose = close freshClose ∧
      (close freshClose).freeCalls ≤ freshClose.freeCalls + 1) ∧
    (close freshClose).freeCalls = 1 := by
  have h := close_idempotent_and_frees_at_most_once freshClose 2 (by decide)
  exact ⟨⟨by decide, h.1, h.2⟩, by decide⟩

/-- Claim C3, counterexample: parsing a nonexistent file (the native parser
returns a null handle with "File not found" in the last-error buffer) raises
`ParseError`, not `FileNotFound`. -/
theorem parse_missing_file_raises_parse_error_not_file_not_found :
    parse stubEngine "missing.hwp" none =
      Except.error (UnhwpErr.parseError "Failed to parse missing.hwp: File not found") ∧
    raisesFileNotFound (parse stubEngine "missing.hwp" none) = false :=
  ⟨rfl, rfl⟩

/-- Claim C3 (amended): `parse` either returns a valid open handle (truthy
handle, `_closed = False`) or raises `ParseError` carrying the last-error
text; no half-constructed result exists on failure, but every failure —
including a nonexistent file — surfaces as `ParseError`, never as
`FileNotFound`. -/
theorem parse_returns_open_handle_or_parse_error
    (e : NativeEngine) (path : String) (opts : Option RenderOptions) :
    (∃ r, parse e path opts = .ok r ∧ r.closed = false ∧
      handleTruthy r.handle = true) ∨
    parse e path opts =
      .error (.parseError ("Failed to parse " ++ path ++ ": " ++ get_last_error e)) := by
  by_cases h : e.parse_file path = 0
  · right
    simp [parse, h]
  · left
    refine ⟨{ handle := some (e.parse_file path),
              flags := (opts.getD RenderOptions.mkDefault)._to_flags,
              closed := false }, ?_, rfl, ?_⟩
    · simp [parse, h]
    · simp [handleTruthy, h]

/-- Claim C4, counterexample: options requesting a non-default
`table_fallback` and a non-empty `image_path_prefix` marshal to exactly the
default flags, and `parse` succeeds with them exactly as with defaults —
the two fields are silently discarded, not honored and not rejected. -/
theorem table_fallback_and_image_prefix_silently_dropped :
    lossyOpts.table_fallback = 1 ∧
    RenderOptions.image_path_prefix lossyOpts = "img/" ∧
    lossyOpts._to_flags = RenderOptions.mkDefault._to_flags ∧
    parse goodEngine "doc.hwp" (some lossyOpts) = parse goodEngine "doc.hwp" none ∧
    (parse goodEngine "doc.hwp" (some lossyOpts)).isOk = true :=
  ⟨rfl, rfl, rfl, rfl, rfl⟩

/-- Claim C4 (amended): the flags encoding depends only on the three boolean
fields (`include_frontmatter`, `escape_special_chars`,
`preserve_line_breaks`); `table_fallback` and `image_path_prefix` are
silently dropped by `_to_flags` — no `UnsupportedFormatError` or
`InvalidArgument` is raised for them at parse time. -/
theorem to_flags_depends_only_on_boolean_fields (o o₂ : RenderOptions)
    (h1 : o.include_frontmatter = o₂.include_frontmatter)
    (h2 : o.escape_special_chars = o₂.escape_special_chars)
    (h3 : o.preserve_line_breaks = o₂.preserve_line_breaks) :
    o._to_flags = o₂._to_flags := by
  unfold RenderOptions._to_flags
  rw [h1, h2, h3]

/-- Claim C4, witness: the amended theorem at `lossyOpts` versus the default
options. -/
theorem to_flags_depends_only_on_boolean_fields_witness :
    lossyOpts.include_frontmatter = RenderOptions.mkDefault.include_frontmatter ∧
    lossyOpts.escape_special_chars = RenderOptions.mkDefault.escape_special_chars ∧
    lossyOpts.preserve_line_breaks = RenderOptions.mkDefault.preserve_line_breaks ∧
    lossyOpts._to_flags = RenderOptions.mkDefault._to_flags :=
  ⟨rfl, rfl, rfl,
    to_flags_depends_only_on_boolean_fields lossyOpts RenderOptions.mkDefault rfl rfl rfl⟩

/-- Claim C5: whenever a native call fails (null string pointer, null handle
or negative count), the exception raised carries a message that is a fixed
prefix followed verbatim by the engine's last-error text as retrieved by
`_get_last_error`. -/
theorem native_failure_messages_carry_last_error
    (e : NativeEngine) (r : ParseResult) (p : String) (data : Bytes) (s : String)
    (hle : e.last_error = some s) (hopen : r.closed = false) :
    (e.to_markdown_fn (r.handle.getD 0) r.flags = none →
      markdown e r = .error (.renderError ("Failed to convert to markdown: " ++ s))) ∧
    (e.to_text_fn (r.handle.getD 0) = none →
      text e r = .error (.renderError ("Failed to convert to text: " ++ s))) ∧
    (e.plain_text_fn (r.handle.getD 0) = none →
      plain_text e r = .error (.renderError ("Failed to get plain text: " ++ s))) ∧
    (e.to_json_fn (r.handle.getD 0) UNHWP_JSON_PRETTY = none →
      json e r = .error (.renderError ("Failed to convert to JSON: " ++ s))) ∧
    (e.section_count_fn (r.handle.getD 0) < 0 →
      section_count e r = .error (.unhwpError ("Failed to get section count: " ++ s))) ∧
    (e.resource_count_fn (r.handle.getD 0) < 0 →
      image_count e r = .error (.unhwpError ("Failed to get resource count: " ++ s))) ∧
    (e.parse_file p = 0 →
      parse e p none = .error (.parseError ("Failed to parse " ++ p ++ ": " ++ s))) ∧
    (e.parse_bytes_fn data = 0 →
      parse_bytes e data none = .error (.parseError ("Failed to parse bytes: " ++ s))) := by
  have hgle : get_last_error e = s := by rw [get_last_error, hle]
  refine ⟨?_, ?_, ?_, ?_, ?_, ?_, ?_, ?_⟩ <;> intro h
  · simp [markdown, ensure_open, hopen, h, hgle]; rfl
  · simp [text, ensure_open, hopen, h, hgle]; rfl
  · simp [plain_text, ensure_open, hopen, h, hgle]; rfl
  · simp [json, ensure_open, hopen, h, hgle]; rfl
  · simp [section_count, ensure_open, hopen, h, hgle]; rfl
  · simp [image_count, ensure_open, hopen, h, hgle]; rfl
  · simp [parse, h, hgle]
  · simp [parse_bytes, h, hgle]

/-- Claim C5, witness: the theorem at the stub engine (whose last-error text
is "File not found") and the fresh open result, exercised at the `markdown`
and `parse_bytes` sites. -/
theorem native_failure_messages_carry_last_error_witness :
    stubEngine.last_error = some "File not found" ∧
    okResult.closed = false ∧
    markdown stubEngine okResult =
      .error (.renderError "Failed to convert to markdown: File not found") ∧
    parse_bytes stubEngine [0, 1] none =
      .error (.parseError "Failed to parse bytes: File not found") :=
  ⟨rfl, rfl,
    (native_failure_messages_carry_last_error stubEngine okResult "x.hwp" [0, 1]
      "File not found" rfl rfl).1 rfl,
    (native_failure_messages_carry_last_error stubEngine okResult "x.hwp" [0, 1]
      "File not found" rfl rfl).2.2.2.2.2.2.2 rfl⟩

/-- Claim C6, counterexample: a zero-byte file whose name carries the `.hwp`
extension is classified as `FORMAT_HWP5`, not `FORMAT_UNKNOWN` — detection
reads only the extension, never the (empty) content. -/
theorem zero_byte_hwp_file_detected_as_hwp5 :
    (emptyHwpFS "empty.hwp").present = true ∧
    (emptyHwpFS "empty.hwp").content = [] ∧
    detect_format emptyHwpFS "empty.hwp" = FORMAT_HWP5 ∧
    FORMAT_HWP5 ≠ FORMAT_UNKNOWN := by
  refine ⟨rfl, rfl, ?_, by decide⟩
  decide

/-- Claim C6 (amended): `detect_format` is total (it never fails) and purely
extension-based: a nonexistent path yields `FORMAT_UNKNOWN`; an existing
path yields `FORMAT_HWP5`/`FORMAT_HWPX`/`FORMAT_UNKNOWN` according to its
lower-cased suffix alone, independent of file content — so zero-byte or
plain-text files yield `FORMAT_UNKNOWN` only when their extension is neither
`.hwp` nor `.hwpx`. -/
theorem detect_format_total_and_extension_based
    (fs : String → FSEntry) (path : String) :
    ((fs path).present = false → detect_format fs path = FORMAT_UNKNOWN) ∧
    ((fs path).present = true → lowerAscii (pathSuffix path) = ".hwp" →
      detect_format fs path = FORMAT_HWP5) ∧
    ((fs path).present = true → lowerAscii (pathSuffix path) = ".hwpx" →
      detect_format fs path = FORMAT_HWPX) ∧
    ((fs path).present = true → lowerAscii (pathSuffix path) ≠ ".hwp" →
      lowerAscii (pathSuffix path) ≠ ".hwpx" →
      detect_format fs path = FORMAT_UNKNOWN) ∧
    (∀ content,
      detect_format
        (fun p => if p = path then
          { present := (fs path).present, content := content } else fs p) path =
      detect_format fs path) := by
  refine ⟨?_, ?_, ?_, ?_, ?_⟩
  · intro h
    simp [detect_format, h]
  · intro hp hs
    simp [detect_format, hp, hs]
  · intro hp hs
    simp [detect_format, hp, hs]
  · intro hp hs1 hs2
    simp [detect_format, hp, hs1, hs2]
  · intro content
    simp [detect_format]

/-- Claim C6, witness: the amended theorem classifying the concrete zero-byte
`.hwp` file. -/
theorem detect_format_total_and_extension_based_witness :
    (emptyHwpFS "empty.hwp").present = true ∧
    lowerAscii (pathSuffix "empty.hwp") = ".hwp" ∧
    detect_format emptyHwpFS "empty.hwp" = FORMAT_HWP5 :=
  ⟨by decide, by decide,
    (detect_format_total_and_extension_based emptyHwpFS "empty.hwp").2.1
      (by decide) (by decide)⟩

/-- Modelled from the spec: the engine behavior behind
`resourceCount() == length(listResourceIds())` and the round-trip property
of §4.5/§8 is not in the provided sources (the native engine lives outside
`src/`), so a well-formed document is the spec's assumption on the engine:
the handle advertises `ids`, the resource count equals their number, and
every advertised id yields a non-null, non-empty buffer. -/
def WellFormedDoc (e : NativeEngine) (h : Nat) (ids : List String) : Prop :=
  e.get_resource_ids h = some ids ∧
  e.resource_count_fn h = (ids.length : Int) ∧
  ∀ i ∈ ids, ∃ d, e.get_resource_data h i = some d ∧ 0 < d.length

/-- Claim C7: on an open handle to a well-formed document (`WellFormedDoc`),
the `images` accessor succeeds with exactly `image_count` elements, one per
advertised id, in order. -/
theorem images_one_per_advertised_id_on_wellformed_doc
    (e : NativeEngine) (r : ParseResult) (h : Nat) (ids : List String)
    (hopen : r.closed = false) (hh : r.handle = some h)
    (hwf : WellFormedDoc e h ids) :
    images e r = .ok (ids.filterMap (extractOne e h)) ∧
    image_count e r = .ok ((ids.length : Int)) ∧
    (ids.filterMap (extractOne e h)).length = ids.length ∧
    (ids.filterMap (extractOne e h)).map Image.name = ids := by
  obtain ⟨hids, hcount, hdata⟩ := hwf
  have hft := filterMap_extractOne_total e h ids hdata
  have hd0 : r.handle.getD 0 = h := by rw [hh]; rfl
  have hge : ¬ (ids.length : Int) < 0 := by omega
  refine ⟨?_, ?_, hft.2, hft.1⟩
  · simp [images, ensure_open, hopen, hd0, hids]; rfl
  · simp [image_count, ensure_open, hopen, hd0, hcount, hge]; rfl

/-- Claim C7, witness: the theorem at the two-image engine; the extracted
list evaluates to the two advertised resources with their buffers. -/
theorem images_one_per_advertised_id_on_wellformed_doc_witness :
    (images goodEngine okResult =
        .ok (["img1.png", "img2.jpg"].filterMap (extractOne goodEngine 7)) ∧
      image_count goodEngine okResult =
        .ok (((["img1.png", "img2.jpg"] : List String).length : Int)) ∧
      (["img1.png", "img2.jpg"].filterMap (extractOne goodEngine 7)).length =
        (["img1.png", "img2.jpg"] : List String).length ∧
      (["img1.png", "img2.jpg"].filterMap (extractOne goodEngine 7)).map Image.name =
        ["img1.png", "img2.jpg"]) ∧
    ["img1.png", "img2.jpg"].filterMap (extractOne goodEngine 7) =
      [⟨"img1.png", [1, 2, 3]⟩, ⟨"img2.jpg", [9]⟩] := by
  refine ⟨images_one_per_advertised_id_on_wellformed_doc goodEngine okResult 7
    ["img1.png", "img2.jpg"] rfl rfl ⟨rfl, rfl, ?_⟩, by decide⟩
  intro i hi
  simp only [List.mem_cons, List.not_mem_nil, or_false] at hi
  rcases hi with rfl | rfl
  · exact ⟨[1, 2, 3], by decide, by decide⟩
  · exact ⟨[9], by decide, by decide⟩

/-- Claim C8: bulk enumeration never aborts — `images` and `iter_images`
return the filter of the advertised ids keeping exactly the resources whose
data retrieval yields a non-null non-empty buffer, and any resource that
extracts successfully is in the output no matter how many others fail. -/
theorem images_skip_failed_resources_without_aborting
    (e : NativeEngine) (r : ParseResult) (h : Nat) (ids : List String)
    (hopen : r.closed = false) (hh : r.handle = some h)
    (hids : e.get_resource_ids h = some ids) :
    images e r = .ok (ids.filterMap (extractOne e h)) ∧
    iter_images e r = .ok (ids.filterMap (extractOne e h)) ∧
    ∀ i ∈ ids, ∀ d, e.get_resource_data h i = some d → 0 < d.length →
      Image.mk i d ∈ ids.filterMap (extractOne e h) := by
  have hd0 : r.handle.getD 0 = h := by rw [hh]; rfl
  refine ⟨?_, ?_, ?_⟩
  · simp [images, ensure_open, hopen, hd0, hids]; rfl
  · simp [iter_images, ensure_open, hopen, hd0, hids]; rfl
  · intro i hi d hd hlen
    refine List.mem_filterMap.mpr ⟨i, hi, ?_⟩
    unfold extractOne
    rw [hd]
    simp [hlen]

/-- Claim C8, witness: with the middle of three resources corrupt (null data
pointer), `images` still returns the two good resources and no error. -/
theorem images_skip_failed_resources_without_aborting_witness :
    images badResourceEngine okResult =
      .ok (["good.png", "bad.png", "alsogood.png"].filterMap
        (extractOne badResourceEngine 7)) ∧
    ["good.png", "bad.png", "alsogood.png"].filterMap (extractOne badResourceEngine 7) =
      [⟨"good.png", [5]⟩, ⟨"alsogood.png", [7, 8]⟩] ∧
    badResourceEngine.get_resource_data 7 "bad.png" = none :=
  ⟨(images_skip_failed_resources_without_aborting badResourceEngine okResult 7
      ["good.png", "bad.png", "alsogood.png"] rfl rfl rfl).1,
    by decide, by decide⟩

/-- Claim C9: the `CleanupOptions` presets are fixed factory configurations —
`disabled()` always has `enabled = False`, `minimal()` is
`(enabled = True, preset = 0)`, `default()` is `(enabled = True, preset = 1)`
and `aggressive()` is `(enabled = True, preset = 2)`. -/
theorem cleanup_presets_fixed_configurations :
    CleanupOptions.disabled.enabled = false ∧
    CleanupOptions.minimal.preset = 0 ∧ CleanupOptions.minimal.enabled = true ∧
    CleanupOptions.default.preset = 1 ∧ CleanupOptions.default.enabled = true ∧
    CleanupOptions.aggressive.preset = 2 ∧ CleanupOptions.aggressive.enabled = true := by
  decide

/-- Claim C10: for every engine, every path and every cleanup-options value
(any preset — including out-of-range integers — enabled or disabled, or
omitted), `to_markdown_with_cleanup` returns exactly what `to_markdown`
returns: the cleanup options have no effect on the output. -/
theorem to_markdown_with_cleanup_ignores_cleanup_options
    (e : NativeEngine) (path : String) (opts : Option CleanupOptions) :
    to_markdown_with_cleanup e path opts = to_markdown e path := rfl

end Unhwp
